import Mathlib

/-!
# Verification of the zgoubidoo frame-patching and placement engine

Shallow embedding of the placement engine of the `zgoubidoo` repository:

* `src/zgoubidoo/commands/patchable.py` — the shared `Patchable` contract:
  `place`, `clear_placement`, the lazily cached frame accessors
  (`entry`, `entry_patched`, `exit`, `exit_patched`, `center`) and the
  track-variable adjustment;
* `src/zgoubidoo/commands/magnetique.py` — the Cartesian (`CartesianMagnet`)
  and polar (`PolarMagnet`, `PolarMultiMagnet`) geometry strategies, the
  `Dipoles.post_init` / `FFAG.post_init` per-EFB default resolution, and the
  polar track re-projection `PolarMagnet.adjust_tracks_variables`.

Numeric values are embedded as rationals (the Python code computes with
machine floats; all operations used here are field operations and exact
equality tests).  Trigonometric functions (`sin`, `cos`, `arcsin`) appear
only as opaque parameters of the embedding: the code applies them to
computed arguments and never relies on their analytic properties.

Python `x or default` on a numeric value `x` yields `default` exactly when
`x` is `None` or equal to zero; for a numeric (non-`None`) `x` this is `x`
itself when `x ≠ 0` and `0 = x` when `x = 0`, so the idiom collapses to the
identity; `None`-able parameters are embedded as `Option ℚ` with `Option.getD`.

The lazily cached accessors are embedded as functions of the element's slot
state (`ElementState`) returning the value an access yields on that state:
a filled cache slot is returned as is; an empty slot triggers the
computation the property performs.  The state after `place`/`clear_placement`
(all cache slots empty) is the state on which the placement-formula theorems
are stated, matching the spec's "first access computes" reading.
-/

/-- Modelled from the spec: the `Frame` collaborator
(`georges_core.frame.Frame`, an external dependency, not part of this
repository).  The spec describes it as "an immutable-interface rigid-body
reference frame in 3-D space supporting translation along its own axes and
rotation about its own axes, and construction as a copy of another frame".
It is modelled as the free algebra generated by the operations the placement
engine invokes (`translate_x`, `translate_y`, `rotate_z`); copy construction
(`frame.__class__(frame)`) is value identity.  Equality of frames is
syntactic equality of the applied operation sequences, which is exactly what
the placement formulas of the spec assert. -/
inductive Frame : Type where
  | base : ℕ → Frame
  | translate_x : Frame → ℚ → Frame
  | translate_y : Frame → ℚ → Frame
  | rotate_z : Frame → ℚ → Frame
  deriving DecidableEq, Repr

/-- The Python exceptions the embedded code can raise.
`zgoubidooException` is the library's own fatal error class
(`zgoubidoo.commands.commands.ZgoubidooException`), the "configuration
error" / "inconsistent-input error" of the spec; the others are Python
built-ins. -/
inductive PyError : Type where
  | typeError : PyError
  | attributeError : PyError
  | indexError : PyError
  | zgoubidooException : PyError
  deriving DecidableEq, Repr

instance {ε α : Type} [DecidableEq ε] [DecidableEq α] : DecidableEq (Except ε α) := fun a b =>
  match a, b with
  | .ok x, .ok y => if h : x = y then .isTrue (by simp [h]) else .isFalse (by simp [h])
  | .ok _, .error _ => .isFalse (by simp)
  | .error _, .ok _ => .isFalse (by simp)
  | .error e, .error e' => if h : e = e' then .isTrue (by simp [h]) else .isFalse (by simp [h])

/-- The mutable frame slots of a `Patchable` element
(`Patchable.__init__`): the stored entrance frame `_entry` and the four
lazily cached derived frames.  (`_frenet` and `_reference_trajectory` are
not modelled: no accessor under study reads them.) -/
structure ElementState : Type where
  entry : Option Frame
  entry_patched : Option Frame
  exit : Option Frame
  exit_patched : Option Frame
  center : Option Frame
  deriving DecidableEq, Repr

namespace Patchable

/-- `Patchable.__init__`: an un-patched element, all frame slots unset. -/
def init : ElementState :=
  { entry := none, entry_patched := none, exit := none, exit_patched := none,
    center := none }

/-- `Patchable.clear_placement`: resets `_entry` and every derived frame. -/
def clear_placement (_s : ElementState) : ElementState :=
  { entry := none, entry_patched := none, exit := none, exit_patched := none,
    center := none }

/-- `Patchable.place`: calls `clear_placement` and then stores a copy of the
reference frame as `_entry` (copy construction is value identity in the
frame model). -/
def place (frame : Frame) (s : ElementState) : ElementState :=
  { clear_placement s with entry := some frame }

/-- `Patchable.entry` property: returns `_entry` directly (possibly `None`),
it cannot raise. -/
def entryAcc (s : ElementState) : Option Frame :=
  s.entry

/-- `Patchable.entry_patched` property: returns the cache if set, otherwise
computes `self.entry.__class__(self.entry)` — a copy of the entrance frame.
When `_entry` is `None` this evaluates `NoneType(None)`, which raises the
built-in `TypeError` (`NoneType takes no arguments`). -/
def entryPatchedAcc (s : ElementState) : Except PyError Frame :=
  match s.entry_patched with
  | some f => .ok f
  | none =>
    match s.entry with
    | none => .error .typeError
    | some e => .ok e

/-- `Patchable.exit` property: cache, or a copy of `self.entry_patched`. -/
def exitAcc (s : ElementState) : Except PyError Frame :=
  match s.exit with
  | some f => .ok f
  | none => do
    let ep ← entryPatchedAcc s
    .ok ep

/-- `Patchable.exit_patched` property: cache, or a copy of `self.exit`. -/
def exitPatchedAcc (s : ElementState) : Except PyError Frame :=
  match s.exit_patched with
  | some f => .ok f
  | none => do
    let ex ← exitAcc s
    .ok ex

/-- `Patchable.center` property: cache, or a copy of `self.entry`; like
`entry_patched` this raises `TypeError` when `_entry` is `None`. -/
def centerAcc (s : ElementState) : Except PyError Frame :=
  match s.center with
  | some f => .ok f
  | none =>
    match s.entry with
    | none => .error .typeError
    | some e => .ok e

end Patchable

namespace CartesianMagnet

/-- Parameters of `CartesianMagnet` consumed by its frame accessors.
`XL` (the length, `CartesianMagnet.length`) and `B1` are embedded as plain
rationals; `X_E`, `X_S`, `XCE`, `YCE`, `ALE` can be `None` in the source and
are read through the `x or 0` idiom (`Option.getD 0` here); `KPOS` is an
optional integer; `brho` is `self.KINEMATICS.brho`, absent when the
`KINEMATICS` parameter is `None`. -/
structure Params : Type where
  XL : ℚ
  B1 : ℚ
  X_E : Option ℚ
  X_S : Option ℚ
  XCE : Option ℚ
  YCE : Option ℚ
  ALE : Option ℚ
  KPOS : Option ℤ
  brho : Option ℚ
  deriving DecidableEq, Repr

/-- `CartesianMagnet.rotation` = `self.ALE or 0`. -/
def rotation (p : Params) : ℚ := p.ALE.getD 0

/-- `CartesianMagnet.x_offset` = `self.XCE or 0`. -/
def x_offset (p : Params) : ℚ := p.XCE.getD 0

/-- `CartesianMagnet.y_offset` = `self.YCE or 0`. -/
def y_offset (p : Params) : ℚ := p.YCE.getD 0

/-- `CartesianMagnet.length` = `self.XL`. -/
def length (p : Params) : ℚ := p.XL

/-- `CartesianMagnet.entry_patched`, parameterized by the (opaque) `arcsin`
function.  Cache, or a copy of `entry` — `TypeError` when unplaced — then:
for `KPOS in (0, 1, 2)` translate by `-(X_E or 0)` then `x_offset` along the
local X axis, by `y_offset` along the local Y axis, and rotate by
`-rotation`; for `KPOS == 3` translate by `-(X_E or 0)` and rotate by
`-arcsin(XL·B1/(2·brho))`, where evaluating `self.KINEMATICS.brho` with
`KINEMATICS = None` raises the built-in `AttributeError`; any other `KPOS`
leaves the copy unpatched. -/
def entryPatchedAcc (asin : ℚ → ℚ) (p : Params) (s : ElementState) :
    Except PyError Frame :=
  match s.entry_patched with
  | some f => .ok f
  | none =>
    match s.entry with
    | none => .error .typeError
    | some e =>
      if p.KPOS = some 0 ∨ p.KPOS = some 1 ∨ p.KPOS = some 2 then
        .ok ((((e.translate_x (-(p.X_E.getD 0))).translate_x
          (x_offset p)).translate_y (y_offset p)).rotate_z (-(rotation p)))
      else if p.KPOS = some 3 then
        match p.brho with
        | none => .error .attributeError
        | some b =>
          .ok ((e.translate_x (-(p.X_E.getD 0))).rotate_z
            (-(asin (p.XL * p.B1 / (2 * b)))))
      else .ok e

/-- `CartesianMagnet.exit`: cache, or a copy of `entry_patched` translated
by `self.length + (self.X_E or 0)` along the local X axis. -/
def exitAcc (asin : ℚ → ℚ) (p : Params) (s : ElementState) :
    Except PyError Frame :=
  match s.exit with
  | some f => .ok f
  | none => do
    let ep ← entryPatchedAcc asin p s
    .ok (ep.translate_x (length p + p.X_E.getD 0))

/-- `CartesianMagnet.exit_patched`: cache, or, branching on `KPOS`:
`None`/`1` — copy of `exit` translated by `-(X_S or 0)`; `0`/`2` — copy of
the *unpatched* `entry` translated by `XL or 0` then by `-(X_S or 0)`;
`3` — copy of `exit` rotated by `-arcsin(XL·B1/(2·brho))`.  For any other
`KPOS` no branch assigns `_exit_patched` and the property returns `None`,
hence the `Option Frame` result. -/
def exitPatchedAcc (asin : ℚ → ℚ) (p : Params) (s : ElementState) :
    Except PyError (Option Frame) :=
  match s.exit_patched with
  | some f => .ok (some f)
  | none =>
    if p.KPOS = none ∨ p.KPOS = some 1 then do
      let ex ← exitAcc asin p s
      .ok (some (ex.translate_x (-(p.X_S.getD 0))))
    else if p.KPOS = some 0 ∨ p.KPOS = some 2 then
      match s.entry with
      | none => .error .typeError
      | some e => .ok (some ((e.translate_x p.XL).translate_x (-(p.X_S.getD 0))))
    else if p.KPOS = some 3 then do
      let ex ← exitAcc asin p s
      match p.brho with
      | none => .error .attributeError
      | some b => .ok (some (ex.rotate_z (-(asin (p.XL * p.B1 / (2 * b))))))
    else .ok none

end CartesianMagnet

namespace PolarMagnet

/-- Parameters of `PolarMagnet` consumed by its frame accessors, with the
`x or 0` defaults already collapsed (all these parameters are numeric in
the polar element classes; `x or 0` is the identity on a number, see the
file header).  `AT` is the angular opening in radians. -/
structure Params : Type where
  AT : ℚ
  RM : ℚ
  RE : ℚ
  TE : ℚ
  RS : ℚ
  TS : ℚ
  deriving DecidableEq, Repr

/-- `PolarMagnet.angular_opening` = `self.AT or 0`. -/
def angular_opening (p : Params) : ℚ := p.AT

/-- `PolarMagnet.radius` = `self.RM or 0`. -/
def radius (p : Params) : ℚ := p.RM

/-- `PolarMagnet.length` = `angular_opening (in radians) · radius`. -/
def length (p : Params) : ℚ := angular_opening p * radius p

/-- `PolarMagnet.entry_patched`: cache, or a copy of `entry` — `TypeError`
when unplaced — translated by `radius - (RE or 0)` along the local Y axis
and rotated by `-TE`. -/
def entryPatchedAcc (p : Params) (s : ElementState) : Except PyError Frame :=
  match s.entry_patched with
  | some f => .ok f
  | none =>
    match s.entry with
    | none => .error .typeError
    | some e => .ok ((e.translate_y (radius p - p.RE)).rotate_z (-p.TE))

/-- `PolarMagnet.center`: cache, or a copy of `entry_patched` translated by
`-radius` along the local Y axis. -/
def centerAcc (p : Params) (s : ElementState) : Except PyError Frame :=
  match s.center with
  | some f => .ok f
  | none => do
    let ep ← entryPatchedAcc p s
    .ok (ep.translate_y (-(radius p)))

/-- `PolarMagnet.exit`: cache, or a copy of `center` translated by `radius`
along the local Y axis and rotated by `-angular_opening`. -/
def exitAcc (p : Params) (s : ElementState) : Except PyError Frame :=
  match s.exit with
  | some f => .ok f
  | none => do
    let c ← centerAcc p s
    .ok ((c.translate_y (radius p)).rotate_z (-(angular_opening p)))

/-- `PolarMagnet.exit_patched`: cache, or a copy of `exit` translated by
`(RS or 0) - radius` along the local Y axis and rotated by `+TS`. -/
def exitPatchedAcc (p : Params) (s : ElementState) : Except PyError Frame :=
  match s.exit_patched with
  | some f => .ok f
  | none => do
    let ex ← exitAcc p s
    .ok ((ex.translate_y (p.RS - radius p)).rotate_z p.TS)

end PolarMagnet

namespace PolarMultiMagnet

/-- The parameters of a Polar-Multi element (`Dipoles` / `FFAG`) read or
written by `post_init`, plus one representative per-EFB array it does *not*
read (`R1_E`, the entrance EFB radii).  `N` is the number of EFB pairs,
`AT` the total angular extent, `RM` the reference radius; `OMEGA_E`,
`OMEGA_S`, `ACN` are the per-EFB azimuth arrays, `RE`/`RS` the scalar
entrance/exit radii. -/
structure Params : Type where
  N : ℕ
  AT : ℚ
  RM : ℚ
  OMEGA_E : List ℚ
  OMEGA_S : List ℚ
  ACN : List ℚ
  R1_E : List ℚ
  RE : ℚ
  RS : ℚ
  deriving DecidableEq, Repr

/-- One iteration of the `post_init` loop of `Dipoles` and `FFAG`
(both bodies are textually identical): for index `i`, default `OMEGA_E[i]`
to `AT/(2N) + i·AT/N` if it is zero, decrement `OMEGA_S[i]` by
`AT - AT/(2N) - i·AT/N` if it is zero, default `ACN[i]` to
`AT/(2N) + i·AT/N` if it is zero, and default the scalars `RE`/`RS` to `RM`
if they are zero.  Indexing a per-EFB array past its end raises the
built-in `IndexError`. -/
def postInitStep (s : Params) (i : ℕ) : Except PyError Params :=
  match s.OMEGA_E.get? i with
  | none => .error .indexError
  | some oe =>
    let s1 := if oe = 0 then
      { s with OMEGA_E :=
          s.OMEGA_E.set i (s.AT / (2 * s.N) + i * s.AT / s.N) }
      else s
    match s1.OMEGA_S.get? i with
    | none => .error .indexError
    | some os =>
      let s2 := if os = 0 then
        { s1 with OMEGA_S := s1.OMEGA_S.set i (os - (s1.AT - s1.AT / (2 * s1.N) - i * s1.AT / s1.N)) }
        else s1
      match s2.ACN.get? i with
      | none => .error .indexError
      | some ac =>
        let s3 := if ac = 0 then
          { s2 with ACN :=
              s2.ACN.set i (s2.AT / (2 * s2.N) + i * s2.AT / s2.N) }
          else s2
        let s4 := if s3.RE = 0 then { s3 with RE := s3.RM } else s3
        let s5 := if s4.RS = 0 then { s4 with RS := s4.RM } else s4
        .ok s5

/-- `Dipoles.post_init` / `FFAG.post_init`: `for i in range(self.N)` run the
loop body above. -/
def postInit (s : Params) : Except PyError Params :=
  (List.range s.N).foldlM postInitStep s

/-- `PolarMultiMagnet.reference_angles`: returns `self.ACN`. -/
def reference_angles (s : Params) : List ℚ := s.ACN

end PolarMultiMagnet

/-- One row of the tracks DataFrame handed to `adjust_tracks_variables`:
the raw simulator columns `LABEL1`, `X`, `Y`, `Yo`, `Z`, `Zo` and the
columns the adjustment writes (`ANGLE`, `R`, `R0`, `SREF`, `YT`, `YT0`,
`ZT`, `ZT0`, `X0`, `Y0`; `X` and `Y` are overwritten in place). -/
structure TrackRow : Type where
  LABEL1 : String
  X : ℚ
  Y : ℚ
  Yo : ℚ
  Z : ℚ
  Zo : ℚ
  ANGLE : ℚ
  R : ℚ
  R0 : ℚ
  SREF : ℚ
  YT : ℚ
  YT0 : ℚ
  ZT : ℚ
  ZT0 : ℚ
  X0 : ℚ
  Y0 : ℚ
  deriving DecidableEq, Repr

namespace PolarMagnet

/-- The per-row effect of `PolarMagnet.adjust_tracks_variables` on a row
whose `LABEL1` matches the element's label (rows with a different label are
left untouched).  The source first snapshots the matching rows
(`t = tracks[tracks.LABEL1 == self.LABEL1]`) and computes every new column
from that snapshot, so all right-hand sides below read the *original* row:
`angles = 100·X`; `ANGLE = angles`; `R = Y`; `R0 = Yo`;
`SREF = radius·angles + entry_s` with `radius = RM` in metres and `entry_s`
the element's starting path length; `YT = Y - radius`; `YT0 = Yo - radius`;
`ZT = Z`; `ZT0 = Zo`; `X = Y·sin(angles)`; `X0 = Yo·sin(angles)`;
`Y = Y·cos(angles) - radius`; `Y0 = Yo·cos(angles) - radius`.
`sin`/`cos` are opaque parameters of the embedding. -/
def adjustRow (sin cos : ℚ → ℚ) (radius entryS : ℚ) (label : String)
    (r : TrackRow) : TrackRow :=
  if r.LABEL1 = label then
    let angles := 100 * r.X
    { r with
      ANGLE := angles
      R := r.Y
      R0 := r.Yo
      SREF := radius * angles + entryS
      YT := r.Y - radius
      YT0 := r.Yo - radius
      ZT := r.Z
      ZT0 := r.Zo
      X := r.Y * sin angles
      X0 := r.Yo * sin angles
      Y := r.Y * cos angles - radius
      Y0 := r.Yo * cos angles - radius }
  else r

/-- `PolarMagnet.adjust_tracks_variables`: applies the row adjustment to
every row of the tracks table; only rows whose `LABEL1` equals the
element's label are modified. -/
def adjust_tracks_variables (sin cos : ℚ → ℚ) (radius entryS : ℚ)
    (label : String) (tracks : List TrackRow) : List TrackRow :=
  tracks.map (adjustRow sin cos radius entryS label)

end PolarMagnet

/-- A concrete track row used to evaluate the track re-projection on a
sample input. -/
def sampleRow : TrackRow :=
  { LABEL1 := "M", X := 0, Y := 2, Yo := 3, Z := 4, Zo := 5, ANGLE := 0,
    R := 0, R0 := 0, SREF := 0, YT := 0, YT0 := 0, ZT := 0, ZT0 := 0,
    X0 := 0, Y0 := 0 }

/-- The frame slots of a freshly placed element (helper). -/
@[simp]
theorem place_entry (f : Frame) (s : ElementState) :
    (Patchable.place f s).entry = some f := rfl

/-- The `entry_patched` cache of a freshly placed element (helper). -/
@[simp]
theorem place_entry_patched (f : Frame) (s : ElementState) :
    (Patchable.place f s).entry_patched = none := rfl

/-- The `exit` cache of a freshly placed element (helper). -/
@[simp]
theorem place_exit (f : Frame) (s : ElementState) :
    (Patchable.place f s).exit = none := rfl

/-- The `exit_patched` cache of a freshly placed element (helper). -/
@[simp]
theorem place_exit_patched (f : Frame) (s : ElementState) :
    (Patchable.place f s).exit_patched = none := rfl

/-- The `center` cache of a freshly placed element (helper). -/
@[simp]
theorem place_center (f : Frame) (s : ElementState) :
    (Patchable.place f s).center = none := rfl

/-- Reduction of monadic bind on `Except` at an error (helper). -/
@[simp]
theorem except_error_bind {ε α β : Type} (e : ε) (f : α → Except ε β) :
    (Except.error e >>= f) = Except.error e := rfl

/-- Reduction of monadic bind on `Except` at a success value (helper). -/
@[simp]
theorem except_ok_bind {ε α β : Type} (a : α) (f : α → Except ε β) :
    ((Except.ok a : Except ε α) >>= f) = f a := rfl

section BaseClaims

/-- C1: for every element and every frame `f`, `clear_placement()` followed
by `place(f)` leaves the element with `entry` equal in value to `f` and all
four derived frames (`entry_patched`, `center`, `exit`, `exit_patched`)
unset; the resulting state is independent of whatever was cached before,
and the next access of each derived accessor recomputes from `f` (shown
here for the shared default point-like geometry, where every derived frame
is a copy of `f`).  (The "private copy" of the claim is copy construction
`frame.__class__(frame)`, which is value identity in the frame model.) -/
theorem c1_clear_then_place_resets (s₁ s₂ : ElementState) (f : Frame) :
    Patchable.place f (Patchable.clear_placement s₁) =
      { entry := some f, entry_patched := none, exit := none,
        exit_patched := none, center := none } ∧
    Patchable.place f (Patchable.clear_placement s₁) =
      Patchable.place f (Patchable.clear_placement s₂) ∧
    Patchable.entryAcc (Patchable.place f (Patchable.clear_placement s₁)) = some f ∧
    Patchable.entryPatchedAcc (Patchable.place f (Patchable.clear_placement s₁)) = .ok f ∧
    Patchable.exitAcc (Patchable.place f (Patchable.clear_placement s₁)) = .ok f ∧
    Patchable.exitPatchedAcc (Patchable.place f (Patchable.clear_placement s₁)) = .ok f ∧
    Patchable.centerAcc (Patchable.place f (Patchable.clear_placement s₁)) = .ok f :=
  ⟨rfl, rfl, rfl, rfl, rfl, rfl, rfl⟩

/-- C10: the `entry` accessor of an element that was never placed
(`Patchable.__init__` state) or has been cleared returns `None` without
raising any error (its embedding is a total function into `Option Frame`,
in contrast with the derived accessors which return `Except`). -/
theorem c10_entry_is_option_valued_probe :
    Patchable.entryAcc Patchable.init = none ∧
    ∀ s : ElementState, Patchable.entryAcc (Patchable.clear_placement s) = none :=
  ⟨rfl, fun _ => rfl⟩

/-- C2 counterexample: on a freshly constructed (never placed) element the
four derived accessors do not raise the library's fatal configuration error
(`ZgoubidooException`); they raise the built-in `TypeError` coming from the
`NoneType(None)` copy construction of the unset entrance frame. -/
theorem c2_counterexample_type_error_not_config_error :
    Patchable.entryPatchedAcc Patchable.init = .error .typeError ∧
    Patchable.exitAcc Patchable.init = .error .typeError ∧
    Patchable.exitPatchedAcc Patchable.init = .error .typeError ∧
    Patchable.centerAcc Patchable.init = .error .typeError ∧
    (Except.error PyError.typeError : Except PyError Frame) ≠
      Except.error PyError.zgoubidooException :=
  ⟨rfl, rfl, rfl, rfl, by simp⟩

/-- C2 (amended): for every element on which `place()` has not been called
(entrance frame and all caches unset), accessing any of the derived-frame
accessors — of the base `Patchable`, of `CartesianMagnet` or of
`PolarMagnet` — raises the built-in `TypeError`, not the library's
configuration error; for the Cartesian `exit_patched` this holds for the
recognized `KPOS` values (`None`, `0`, `1`, `2`, `3`) — an unrecognized
`KPOS` makes `exit_patched` return `None` instead of raising. -/
theorem c2_amended_unplaced_access_raises_type_error
    (s : ElementState) (asin : ℚ → ℚ)
    (pc : CartesianMagnet.Params) (pp : PolarMagnet.Params)
    (he : s.entry = none) (hep : s.entry_patched = none) (hx : s.exit = none)
    (hxp : s.exit_patched = none) (hc : s.center = none) :
    Patchable.entryPatchedAcc s = .error .typeError ∧
    Patchable.exitAcc s = .error .typeError ∧
    Patchable.exitPatchedAcc s = .error .typeError ∧
    Patchable.centerAcc s = .error .typeError ∧
    CartesianMagnet.entryPatchedAcc asin pc s = .error .typeError ∧
    CartesianMagnet.exitAcc asin pc s = .error .typeError ∧
    ((pc.KPOS = none ∨ pc.KPOS = some 0 ∨ pc.KPOS = some 1 ∨
        pc.KPOS = some 2 ∨ pc.KPOS = some 3) →
      CartesianMagnet.exitPatchedAcc asin pc s = .error .typeError) ∧
    PolarMagnet.entryPatchedAcc pp s = .error .typeError ∧
    PolarMagnet.centerAcc pp s = .error .typeError ∧
    PolarMagnet.exitAcc pp s = .error .typeError ∧
    PolarMagnet.exitPatchedAcc pp s = .error .typeError := by
  have hbase : Patchable.entryPatchedAcc s = .error .typeError := by
    simp [Patchable.entryPatchedAcc, he, hep]
  have hcep : CartesianMagnet.entryPatchedAcc asin pc s = .error .typeError := by
    simp [CartesianMagnet.entryPatchedAcc, he, hep]
  have hcex : CartesianMagnet.exitAcc asin pc s = .error .typeError := by
    simp [CartesianMagnet.exitAcc, hx, hcep]
  have hpep : PolarMagnet.entryPatchedAcc pp s = .error .typeError := by
    simp [PolarMagnet.entryPatchedAcc, he, hep]
  have hpc : PolarMagnet.centerAcc pp s = .error .typeError := by
    simp [PolarMagnet.centerAcc, hc, hpep]
  have hpx : PolarMagnet.exitAcc pp s = .error .typeError := by
    simp [PolarMagnet.exitAcc, hx, hpc]
  refine ⟨hbase, ?_, ?_, ?_, hcep, hcex, ?_, hpep, hpc, hpx, ?_⟩
  · simp [Patchable.exitAcc, hx, hbase]
  · simp [Patchable.exitPatchedAcc, hxp, Patchable.exitAcc, hx, hbase]
  · simp [Patchable.centerAcc, hc, he]
  · rintro (hk | hk | hk | hk | hk) <;>
      simp [CartesianMagnet.exitPatchedAcc, hxp, hk, hcex, he]
  · simp [PolarMagnet.exitPatchedAcc, hxp, hpx]

/-- C2 (amended) witness: the amended statement evaluated on the initial
(never placed) element state with concrete Cartesian and polar parameters. -/
theorem c2_amended_witness :
    (Patchable.init.entry = none ∧ Patchable.init.entry_patched = none ∧
      Patchable.init.exit = none ∧ Patchable.init.exit_patched = none ∧
      Patchable.init.center = none) ∧
    Patchable.entryPatchedAcc Patchable.init = .error .typeError ∧
    Patchable.exitAcc Patchable.init = .error .typeError ∧
    Patchable.exitPatchedAcc Patchable.init = .error .typeError ∧
    Patchable.centerAcc Patchable.init = .error .typeError ∧
    CartesianMagnet.entryPatchedAcc id
      ⟨1, 1, none, none, none, none, none, some 1, none⟩ Patchable.init = .error .typeError ∧
    CartesianMagnet.exitAcc id
      ⟨1, 1, none, none, none, none, none, some 1, none⟩ Patchable.init = .error .typeError ∧
    (((some 1 : Option ℤ) = none ∨ (some 1 : Option ℤ) = some 0 ∨
        (some 1 : Option ℤ) = some 1 ∨ (some 1 : Option ℤ) = some 2 ∨
        (some 1 : Option ℤ) = some 3) →
      CartesianMagnet.exitPatchedAcc id
        ⟨1, 1, none, none, none, none, none, some 1, none⟩ Patchable.init = .error .typeError) ∧
    PolarMagnet.entryPatchedAcc ⟨1, 2, 2, 0, 2, 0⟩ Patchable.init = .error .typeError ∧
    PolarMagnet.centerAcc ⟨1, 2, 2, 0, 2, 0⟩ Patchable.init = .error .typeError ∧
    PolarMagnet.exitAcc ⟨1, 2, 2, 0, 2, 0⟩ Patchable.init = .error .typeError ∧
    PolarMagnet.exitPatchedAcc ⟨1, 2, 2, 0, 2, 0⟩ Patchable.init = .error .typeError :=
  ⟨⟨rfl, rfl, rfl, rfl, rfl⟩,
    c2_amended_unplaced_access_raises_type_error Patchable.init id
      ⟨1, 1, none, none, none, none, none, some 1, none⟩ ⟨1, 2, 2, 0, 2, 0⟩
      rfl rfl rfl rfl rfl⟩

end BaseClaims

/-- C5: for every placed polar-geometry element, `entry_patched` is a copy
of `entry` translated along the local transverse (Y) axis by `RM - RE` and
rotated by `-TE` about the longitudinal axis; `center` is `entry_patched`
translated by `-RM`; `exit` is `center` translated by `+RM` and rotated by
`-AT` (rotation about the center of curvature); `exit_patched` is `exit`
translated by `RS - RM` and rotated by `+TS`; and the length is the arc
length `AT (radians) · RM`. -/
theorem c5_polar_frame_chain (p : PolarMagnet.Params) (s : ElementState) (f : Frame) :
    PolarMagnet.entryPatchedAcc p (Patchable.place f s) =
      .ok ((f.translate_y (p.RM - p.RE)).rotate_z (-p.TE)) ∧
    PolarMagnet.centerAcc p (Patchable.place f s) =
      .ok (((f.translate_y (p.RM - p.RE)).rotate_z (-p.TE)).translate_y (-p.RM)) ∧
    PolarMagnet.exitAcc p (Patchable.place f s) =
      .ok ((((((f.translate_y (p.RM - p.RE)).rotate_z (-p.TE)).translate_y
        (-p.RM)).translate_y p.RM).rotate_z (-p.AT))) ∧
    PolarMagnet.exitPatchedAcc p (Patchable.place f s) =
      .ok (((((((f.translate_y (p.RM - p.RE)).rotate_z (-p.TE)).translate_y
        (-p.RM)).translate_y p.RM).rotate_z (-p.AT)).translate_y
        (p.RS - p.RM)).rotate_z p.TS) ∧
    PolarMagnet.length p = p.AT * p.RM :=
  ⟨rfl, rfl, rfl, rfl, rfl⟩

/-- C3: for every placed Cartesian-geometry element with `KPOS` in
`{0, 1, 2}`, `entry_patched` is a copy of `entry` translated back by `X_E`
along the local X axis, then translated by the offsets
(`x_offset` along local X, `y_offset` along local Y), then rotated by
`-rotation` about the local longitudinal axis. -/
theorem c3_cartesian_entry_patched (asin : ℚ → ℚ) (p : CartesianMagnet.Params)
    (s : ElementState) (f : Frame)
    (h : p.KPOS = some 0 ∨ p.KPOS = some 1 ∨ p.KPOS = some 2) :
    CartesianMagnet.entryPatchedAcc asin p (Patchable.place f s) =
      .ok ((((f.translate_x (-(p.X_E.getD 0))).translate_x
        (CartesianMagnet.x_offset p)).translate_y
        (CartesianMagnet.y_offset p)).rotate_z
        (-(CartesianMagnet.rotation p))) := by
  simp only [CartesianMagnet.entryPatchedAcc, Patchable.place,
    Patchable.clear_placement]
  rw [if_pos h]

/-- C3 witness: the Cartesian `entry_patched` formula evaluated with
`KPOS = 1`, `X_E = 1`, `XCE = 2`, `YCE = 3`, `ALE = 4` on a placed base
frame. -/
theorem c3_cartesian_entry_patched_witness :
    ((some 1 : Option ℤ) = some 0 ∨ (some 1 : Option ℤ) = some 1 ∨
      (some 1 : Option ℤ) = some 2) ∧
    CartesianMagnet.entryPatchedAcc id
      ⟨10, 0, some 1, none, some 2, some 3, some 4, some 1, none⟩
      (Patchable.place (.base 0) Patchable.init) =
      .ok (Frame.rotate_z (Frame.translate_y (Frame.translate_x
        (Frame.translate_x (Frame.base 0) (-1)) 2) 3) (-4)) :=
  ⟨by decide,
    c3_cartesian_entry_patched id
      ⟨10, 0, some 1, none, some 2, some 3, some 4, some 1, none⟩
      Patchable.init (.base 0) (by decide)⟩

/-- C4: for every placed Cartesian-geometry element, whenever
`entry_patched` computes a frame `ep`, `exit` is a copy of `ep` translated
forward by `length + X_E` along local X; with `KPOS = 1` (the default),
whenever `exit` computes a frame `ex`, `exit_patched` is a copy of `ex`
translated back by `X_S`; with `KPOS` in `{0, 2}`, `exit_patched` is a copy
of the *unpatched* `entry` translated forward by `XL` and then back by
`X_S` — the exit side ignores the entrance-side patch. -/
theorem c4_cartesian_exit_chain (asin : ℚ → ℚ) (p : CartesianMagnet.Params)
    (s : ElementState) (f ep ex : Frame) :
    (CartesianMagnet.entryPatchedAcc asin p (Patchable.place f s) = .ok ep →
      CartesianMagnet.exitAcc asin p (Patchable.place f s) =
        .ok (ep.translate_x (CartesianMagnet.length p + p.X_E.getD 0))) ∧
    (p.KPOS = some 1 →
      CartesianMagnet.exitAcc asin p (Patchable.place f s) = .ok ex →
      CartesianMagnet.exitPatchedAcc asin p (Patchable.place f s) =
        .ok (some (ex.translate_x (-(p.X_S.getD 0))))) ∧
    ((p.KPOS = some 0 ∨ p.KPOS = some 2) →
      CartesianMagnet.exitPatchedAcc asin p (Patchable.place f s) =
        .ok (some ((f.translate_x p.XL).translate_x (-(p.X_S.getD 0))))) := by
  refine ⟨?_, ?_, ?_⟩
  · intro h
    simp [CartesianMagnet.exitAcc, h]
  · intro hk h
    simp [CartesianMagnet.exitPatchedAcc, hk, h]
  · intro hk
    have h1 : ¬(p.KPOS = none ∨ p.KPOS = some 1) := by
      rcases hk with hk | hk <;> simp [hk]
    have h2 : p.KPOS = some 0 ∨ p.KPOS = some 2 := hk
    simp [CartesianMagnet.exitPatchedAcc, h1, h2]

/-- C4 witness: the exit chain evaluated on a placed base frame, with
`KPOS = 1`, `XL = 10`, `X_E = 1`, `X_S = 2`, offsets `5, 6`, rotation `7`
for the first two parts and the same element with `KPOS = 0` for the third
part. -/
theorem c4_cartesian_exit_chain_witness :
    CartesianMagnet.exitAcc id ⟨10, 0, some 1, some 2, some 5, some 6, some 7, some 1, none⟩
      (Patchable.place (.base 0) Patchable.init) =
      .ok (Frame.translate_x (Frame.rotate_z (Frame.translate_y (Frame.translate_x
        (Frame.translate_x (Frame.base 0) (-1)) 5) 6) (-7)) 11) ∧
    CartesianMagnet.exitPatchedAcc id ⟨10, 0, some 1, some 2, some 5, some 6, some 7, some 1, none⟩
      (Patchable.place (.base 0) Patchable.init) =
      .ok (some (Frame.translate_x (Frame.translate_x (Frame.rotate_z (Frame.translate_y
        (Frame.translate_x (Frame.translate_x (Frame.base 0) (-1)) 5) 6) (-7)) 11) (-2))) ∧
    CartesianMagnet.exitPatchedAcc id ⟨10, 0, some 1, some 2, some 5, some 6, some 7, some 0, none⟩
      (Patchable.place (.base 0) Patchable.init) =
      .ok (some (Frame.translate_x (Frame.translate_x (Frame.base 0) 10) (-2))) :=
  by
  have h1 := (c4_cartesian_exit_chain id
    ⟨10, 0, some 1, some 2, some 5, some 6, some 7, some 1, none⟩
    Patchable.init (.base 0)
    (Frame.rotate_z (Frame.translate_y (Frame.translate_x
      (Frame.translate_x (Frame.base 0) (-1)) 5) 6) (-7)) (.base 0)).1 rfl
  have h2 := (c4_cartesian_exit_chain id
    ⟨10, 0, some 1, some 2, some 5, some 6, some 7, some 1, none⟩
    Patchable.init (.base 0) (.base 0) _).2.1 rfl h1
  have h3 := (c4_cartesian_exit_chain id
    ⟨10, 0, some 1, some 2, some 5, some 6, some 7, some 0, none⟩
    Patchable.init (.base 0) (.base 0) (.base 0)).2.2 (by decide)
  refine ⟨?_, ?_, ?_⟩
  · rw [h1]; norm_num [CartesianMagnet.length]
  · rw [h2]; norm_num [CartesianMagnet.length]
  · rw [h3]; norm_num

/-- C6 counterexample: a placed Cartesian element with `KPOS = 3` and no
`KINEMATICS` supplied: accessing `entry_patched` raises the built-in
`AttributeError` (from evaluating `None.brho`), not the library's fatal
configuration error (`ZgoubidooException`). -/
theorem c6_counterexample_attribute_error_not_config_error :
    CartesianMagnet.entryPatchedAcc id ⟨10, 1, none, none, none, none, none, some 3, none⟩
      (Patchable.place (.base 0) Patchable.init) = .error .attributeError ∧
    (Except.error PyError.attributeError : Except PyError Frame) ≠
      Except.error PyError.zgoubidooException :=
  ⟨rfl, by simp⟩

/-- C6 (amended): for every placed Cartesian element with `KPOS = 3`: when
`KINEMATICS`/`brho` is unset, accessing `entry_patched` or `exit_patched`
raises the built-in `AttributeError` (not the library's configuration
error); when `brho` is supplied, the applied correction is a rotation by
`-asin(XL·B1/(2·brho))` about the local longitudinal axis at both the
entry (after translating back by `X_E`) and the exit side. -/
theorem c6_amended_kpos3_arc_correction (asin : ℚ → ℚ)
    (p : CartesianMagnet.Params) (s : ElementState) (f : Frame)
    (h3 : p.KPOS = some 3) :
    (p.brho = none →
      CartesianMagnet.entryPatchedAcc asin p (Patchable.place f s) =
        .error .attributeError ∧
      CartesianMagnet.exitPatchedAcc asin p (Patchable.place f s) =
        .error .attributeError) ∧
    (∀ b : ℚ, p.brho = some b →
      CartesianMagnet.entryPatchedAcc asin p (Patchable.place f s) =
        .ok ((f.translate_x (-(p.X_E.getD 0))).rotate_z
          (-(asin (p.XL * p.B1 / (2 * b))))) ∧
      CartesianMagnet.exitPatchedAcc asin p (Patchable.place f s) =
        .ok (some ((((f.translate_x (-(p.X_E.getD 0))).rotate_z
          (-(asin (p.XL * p.B1 / (2 * b))))).translate_x
          (CartesianMagnet.length p + p.X_E.getD 0)).rotate_z
          (-(asin (p.XL * p.B1 / (2 * b))))))) := by
  constructor
  · intro hb
    have hep : CartesianMagnet.entryPatchedAcc asin p (Patchable.place f s) =
        .error .attributeError := by
      simp [CartesianMagnet.entryPatchedAcc, h3, hb]
    refine ⟨hep, ?_⟩
    simp [CartesianMagnet.exitPatchedAcc, CartesianMagnet.exitAcc, h3, hep]
  · intro b hb
    have hep : CartesianMagnet.entryPatchedAcc asin p (Patchable.place f s) =
        .ok ((f.translate_x (-(p.X_E.getD 0))).rotate_z
          (-(asin (p.XL * p.B1 / (2 * b))))) := by
      simp [CartesianMagnet.entryPatchedAcc, h3, hb]
    refine ⟨hep, ?_⟩
    simp [CartesianMagnet.exitPatchedAcc, CartesianMagnet.exitAcc, h3, hb, hep]

/-- C6 (amended) witness: the `KPOS = 3` behavior evaluated on a placed
base frame, once without `brho` (both patched accessors raise
`AttributeError`) and once with `brho = 5` (rotation by
`-asin(XL·B1/(2·brho))` at both ends). -/
theorem c6_amended_kpos3_arc_correction_witness :
    (CartesianMagnet.entryPatchedAcc id ⟨10, 1, some 2, none, none, none, none, some 3, none⟩
        (Patchable.place (.base 0) Patchable.init) = .error .attributeError ∧
      CartesianMagnet.exitPatchedAcc id ⟨10, 1, some 2, none, none, none, none, some 3, none⟩
        (Patchable.place (.base 0) Patchable.init) = .error .attributeError) ∧
    (CartesianMagnet.entryPatchedAcc id ⟨10, 1, some 2, none, none, none, none, some 3, some 5⟩
        (Patchable.place (.base 0) Patchable.init) =
        .ok (Frame.rotate_z (Frame.translate_x (Frame.base 0) (-2)) (-1)) ∧
      CartesianMagnet.exitPatchedAcc id ⟨10, 1, some 2, none, none, none, none, some 3, some 5⟩
        (Patchable.place (.base 0) Patchable.init) =
        .ok (some (Frame.rotate_z (Frame.translate_x (Frame.rotate_z
          (Frame.translate_x (Frame.base 0) (-2)) (-1)) 12) (-1)))) :=
  by
  have h := (c6_amended_kpos3_arc_correction id
    ⟨10, 1, some 2, none, none, none, none, some 3, some 5⟩ Patchable.init (.base 0)
    (by decide)).2 5 rfl
  refine ⟨(c6_amended_kpos3_arc_correction id
      ⟨10, 1, some 2, none, none, none, none, some 3, none⟩ Patchable.init (.base 0)
      (by decide)).1 rfl, ?_, ?_⟩
  · rw [h.1]; norm_num
  · rw [h.2]; norm_num [CartesianMagnet.length]

/-- C9 counterexample: the claim says both transverse Cartesian
coordinates are `raw-radial × {sin, cos}(angle)` *offset by `-radius`*; in
the code only the cos coordinate carries the `-radius` offset.  At a
matching row with raw radial coordinate `2`, `radius = 1` and the opaque
`sin` evaluating to `0` at the row's angle, the produced X coordinate is
`2·0 = 0` while the claimed value `2·0 - 1 = -1` differs. -/
theorem c9_counterexample_sin_coordinate_not_offset :
    (PolarMagnet.adjustRow (fun _ => 0) (fun _ => 1) 1 0 "M" sampleRow).X ≠
      sampleRow.Y * (fun _ => (0 : ℚ)) (100 * sampleRow.X) - 1 := by
  norm_num [PolarMagnet.adjustRow, sampleRow]

/-- C9 (amended): the polar track re-projection is applied per row, keyed
by the element's label: rows with a different label are untouched; on a
matching row it sets the angle to the fixed scale factor `100` times the
raw horizontal coordinate, the path length to the mean radius times that
angle plus the element's starting path length, the X transverse coordinate
to raw-radial × sin(angle) (with no radius offset), and the Y transverse
coordinate to raw-radial × cos(angle) - radius. -/
theorem c9_amended_polar_track_reprojection (sin cos : ℚ → ℚ)
    (radius entryS : ℚ) (label : String) (tracks : List TrackRow)
    (r : TrackRow) :
    PolarMagnet.adjust_tracks_variables sin cos radius entryS label tracks =
      tracks.map (PolarMagnet.adjustRow sin cos radius entryS label) ∧
    (r.LABEL1 = label →
      (PolarMagnet.adjustRow sin cos radius entryS label r).ANGLE = 100 * r.X ∧
      (PolarMagnet.adjustRow sin cos radius entryS label r).SREF =
        radius * (100 * r.X) + entryS ∧
      (PolarMagnet.adjustRow sin cos radius entryS label r).X =
        r.Y * sin (100 * r.X) ∧
      (PolarMagnet.adjustRow sin cos radius entryS label r).Y =
        r.Y * cos (100 * r.X) - radius ∧
      (PolarMagnet.adjustRow sin cos radius entryS label r).R = r.Y ∧
      (PolarMagnet.adjustRow sin cos radius entryS label r).LABEL1 = r.LABEL1) ∧
    (r.LABEL1 ≠ label → PolarMagnet.adjustRow sin cos radius entryS label r = r) := by
  refine ⟨rfl, ?_, ?_⟩
  · intro h
    simp [PolarMagnet.adjustRow, h]
  · intro h
    simp [PolarMagnet.adjustRow, h]

/-- C9 (amended) witness: the re-projection evaluated on the sample row,
once with the element's label matching the row and once with a different
label. -/
theorem c9_amended_witness :
    (sampleRow.LABEL1 = "M") ∧
    (PolarMagnet.adjustRow (fun _ => 0) (fun _ => 1) 1 0 "M" sampleRow).ANGLE =
      100 * sampleRow.X ∧
    (PolarMagnet.adjustRow (fun _ => 0) (fun _ => 1) 1 0 "M" sampleRow).SREF =
      1 * (100 * sampleRow.X) + 0 ∧
    (PolarMagnet.adjustRow (fun _ => 0) (fun _ => 1) 1 0 "M" sampleRow).X =
      sampleRow.Y * (fun _ => (0 : ℚ)) (100 * sampleRow.X) ∧
    (PolarMagnet.adjustRow (fun _ => 0) (fun _ => 1) 1 0 "M" sampleRow).Y =
      sampleRow.Y * (fun _ => (1 : ℚ)) (100 * sampleRow.X) - 1 ∧
    (sampleRow.LABEL1 ≠ "N") ∧
    PolarMagnet.adjustRow (fun _ => 0) (fun _ => 1) 1 0 "N" sampleRow = sampleRow := by
  have hm := (c9_amended_polar_track_reprojection (fun _ => 0) (fun _ => 1) 1 0 "M"
    [] sampleRow).2.1 rfl
  have hn := (c9_amended_polar_track_reprojection (fun _ => 0) (fun _ => 1) 1 0 "N"
    [] sampleRow).2.2 (by simp [sampleRow])
  exact ⟨rfl, hm.1, hm.2.1, hm.2.2.1, hm.2.2.2.1, by simp [sampleRow], hn⟩

/-- One `post_init` iteration at an index `i` inside all three azimuth
arrays, whose `ACN[i]` is zero: it succeeds, preserves `N`, `AT`, the
array lengths and the unread `R1_E` array, and sets `ACN[i]` to the default
`AT/(2N) + i·AT/N` (helper). -/
theorem postInitStep_ok (s : PolarMultiMagnet.Params) (i : ℕ)
    (hE : i < s.OMEGA_E.length) (hS : i < s.OMEGA_S.length)
    (hA : s.ACN.get? i = some 0) :
    ∃ s' : PolarMultiMagnet.Params,
      PolarMultiMagnet.postInitStep s i = .ok s' ∧
      s'.N = s.N ∧ s'.AT = s.AT ∧
      s'.OMEGA_E.length = s.OMEGA_E.length ∧
      s'.OMEGA_S.length = s.OMEGA_S.length ∧
      s'.ACN = s.ACN.set i (s.AT / (2 * s.N) + i * s.AT / s.N) ∧
      s'.R1_E = s.R1_E := by
  obtain ⟨oe, hoe⟩ : ∃ oe, s.OMEGA_E[i]? = some oe :=
    ⟨_, List.getElem?_eq_getElem hE⟩
  obtain ⟨os, hos⟩ : ∃ os, s.OMEGA_S[i]? = some os :=
    ⟨_, List.getElem?_eq_getElem hS⟩
  have hA' : s.ACN[i]? = some 0 := by
    rw [← List.get?_eq_getElem?]; exact hA
  by_cases h1 : oe = 0 <;> by_cases h2 : os = 0 <;>
    by_cases h3 : s.RE = 0 <;> by_cases h4 : s.RS = 0 <;>
    simp [PolarMultiMagnet.postInitStep, hoe, hos, hA', h1, h2, h3, h4,
      List.length_set]

/-- Folding the `post_init` loop body over the index range `[k, k + m)`
(helper): when all three azimuth arrays extend past `k + m` and the `ACN`
entries in that range are zero, the fold succeeds, preserves `N`, `AT`,
`R1_E` and the `ACN` length, and sets each `ACN[j]`, `k ≤ j < k + m`, to
the default `AT/(2N) + j·AT/N`. -/
theorem postInit_fold_ok (m : ℕ) : ∀ (k : ℕ) (s : PolarMultiMagnet.Params),
    k + m ≤ s.OMEGA_E.length → k + m ≤ s.OMEGA_S.length →
    (∀ j, k ≤ j → j < k + m → s.ACN.get? j = some 0) →
    ∃ s' : PolarMultiMagnet.Params,
      (List.range' k m).foldlM PolarMultiMagnet.postInitStep s = .ok s' ∧
      s'.N = s.N ∧ s'.AT = s.AT ∧ s'.R1_E = s.R1_E ∧
      s'.ACN.length = s.ACN.length ∧
      ∀ j, s'.ACN.get? j =
        if k ≤ j ∧ j < k + m then some (s.AT / (2 * s.N) + j * s.AT / s.N)
        else s.ACN.get? j := by
  induction m with
  | zero =>
    intro k s hE hS hA
    refine ⟨s, rfl, rfl, rfl, rfl, rfl, fun j => ?_⟩
    rw [if_neg (by omega)]
  | succ m ih =>
    intro k s hE hS hA
    have hEk : k < s.OMEGA_E.length := by omega
    have hSk : k < s.OMEGA_S.length := by omega
    have hAk : s.ACN.get? k = some 0 := hA k le_rfl (by omega)
    have hklen : k < s.ACN.length := by
      obtain ⟨h, -⟩ := List.get?_eq_some.mp hAk
      exact h
    obtain ⟨s1, hstep, hN, hAT, hLE, hLS, hACN, hR⟩ :=
      postInitStep_ok s k hEk hSk hAk
    have hE1 : k + 1 + m ≤ s1.OMEGA_E.length := by rw [hLE]; omega
    have hS1 : k + 1 + m ≤ s1.OMEGA_S.length := by rw [hLS]; omega
    have hA1 : ∀ j, k + 1 ≤ j → j < k + 1 + m → s1.ACN.get? j = some 0 := by
      intro j hj1 hj2
      rw [hACN, List.get?_set_ne _ _ (by omega)]
      exact hA j (by omega) (by omega)
    obtain ⟨s', hfold, hN', hAT', hR', hLen', hACN'⟩ := ih (k + 1) s1 hE1 hS1 hA1
    refine ⟨s', ?_, by rw [hN', hN], by rw [hAT', hAT], by rw [hR', hR], ?_, ?_⟩
    · rw [List.range'_succ, List.foldlM_cons, hstep]
      simpa using hfold
    · rw [hLen', hACN, List.length_set]
    · intro j
      rw [hACN' j, hAT, hN]
      by_cases hcase : k + 1 ≤ j ∧ j < k + 1 + m
      · rw [if_pos hcase, if_pos (by omega)]
      · rw [if_neg hcase]
        by_cases hj : j = k
        · subst hj
          rw [if_pos (by omega), hACN, List.get?_set_eq_of_lt _ hklen]
        · rw [if_neg (by omega), hACN, List.get?_set_ne _ _ (by omega)]

/-- C7: for every Polar-Multi element with `N` EFB pairs (`N ≤ 5`) whose
per-slot positioning azimuths are unset (the first `N` entries of `ACN`
are zero; the array itself may be longer, as with the library's length-5
defaults), `post_init` succeeds and defaults each `ACN[i]`, `i < N`, to
`AT/(2N) + i·AT/N`, leaving entries past `N` untouched;
`reference_angles` returns the ordered sequence of the `ACN` entries, and
in particular for `N = 3` the three defaulted values are
`AT/6, AT/2, 5·AT/6` (equal angular spacing). -/
theorem c7_polar_multi_acn_defaults (s : PolarMultiMagnet.Params)
    (hn5 : s.N ≤ 5) (hE : s.N ≤ s.OMEGA_E.length)
    (hS : s.N ≤ s.OMEGA_S.length) (hA : s.N ≤ s.ACN.length)
    (hz : ∀ j, j < s.N → s.ACN.get? j = some 0) :
    ∃ s' : PolarMultiMagnet.Params,
      PolarMultiMagnet.postInit s = .ok s' ∧
      PolarMultiMagnet.reference_angles s' = s'.ACN ∧
      s'.ACN.length = s.ACN.length ∧
      (∀ i, i < s.N →
        s'.ACN.get? i = some (s.AT / (2 * s.N) + i * s.AT / s.N)) ∧
      (∀ i, s.N ≤ i → s'.ACN.get? i = s.ACN.get? i) ∧
      (s.N = 3 → (PolarMultiMagnet.reference_angles s').take 3 =
        [s.AT / 6, s.AT / 2, 5 * s.AT / 6]) := by
  have hz' : ∀ j, 0 ≤ j → j < 0 + s.N → s.ACN.get? j = some 0 := by
    intro j _ hj
    exact hz j (by omega)
  obtain ⟨s', hfold, hN, hAT, hR, hLen, hget⟩ :=
    postInit_fold_ok s.N 0 s (by omega) (by omega) hz'
  have hfold' : PolarMultiMagnet.postInit s = .ok s' := by
    unfold PolarMultiMagnet.postInit
    rw [List.range_eq_range']
    exact hfold
  have hlow : ∀ i, i < s.N →
      s'.ACN.get? i = some (s.AT / (2 * s.N) + i * s.AT / s.N) := by
    intro i hi
    rw [hget i, if_pos ⟨Nat.zero_le i, by omega⟩]
  have hhigh : ∀ i, s.N ≤ i → s'.ACN.get? i = s.ACN.get? i := by
    intro i hi
    rw [hget i, if_neg (by omega)]
  refine ⟨s', hfold', rfl, hLen, hlow, hhigh, ?_⟩
  intro h3
  apply List.ext_get?
  intro n
  by_cases hn : n < 3
  · rw [PolarMultiMagnet.reference_angles, List.get?_take hn]
    interval_cases n
    · rw [hlow 0 (by omega), h3]
      norm_num
    · rw [hlow 1 (by omega), h3]
      norm_num
      ring
    · rw [hlow 2 (by omega), h3]
      norm_num
      ring
  · have h1 : ((PolarMultiMagnet.reference_angles s').take 3).get? n = none := by
      rw [List.get?_eq_none, List.length_take]
      omega
    have h2 : ([s.AT / 6, s.AT / 2, 5 * s.AT / 6].get? n : Option ℚ) = none := by
      rw [List.get?_eq_none]
      simp only [List.length_cons, List.length_nil]
      omega
    rw [h1, h2]

/-- C7 witness: the library-default shape — a three-slot element
(`N = 3`, `AT = 60`) whose five per-EFB array slots are all zero:
`post_init` succeeds, `reference_angles` yields `[10, 30, 50, 0, 0]`
(the three defaulted azimuths `AT/6, AT/2, 5·AT/6` followed by the two
untouched slots), and its first three entries are `[10, 30, 50]`. -/
theorem c7_polar_multi_acn_defaults_witness :
    ((3 : ℕ) ≤ 5 ∧ (3 : ℕ) ≤ ([0, 0, 0, 0, 0] : List ℚ).length ∧
      (∀ j, j < 3 → ([0, 0, 0, 0, 0] : List ℚ).get? j = some 0)) ∧
    ∃ s' : PolarMultiMagnet.Params,
      PolarMultiMagnet.postInit
        { N := 3, AT := 60, RM := 1, OMEGA_E := [0, 0, 0, 0, 0],
          OMEGA_S := [0, 0, 0, 0, 0], ACN := [0, 0, 0, 0, 0],
          R1_E := [0, 0, 0, 0, 0], RE := 0, RS := 0 } = .ok s' ∧
      PolarMultiMagnet.reference_angles s' = [10, 30, 50, 0, 0] ∧
      (PolarMultiMagnet.reference_angles s').take 3 = [10, 30, 50] := by
  obtain ⟨s', h1, h2, -, -, -, h6⟩ := c7_polar_multi_acn_defaults
    { N := 3, AT := 60, RM := 1, OMEGA_E := [0, 0, 0, 0, 0],
      OMEGA_S := [0, 0, 0, 0, 0], ACN := [0, 0, 0, 0, 0],
      R1_E := [0, 0, 0, 0, 0], RE := 0, RS := 0 }
    (by decide) (by decide) (by decide) (by decide) (by decide)
  have hc : PolarMultiMagnet.postInit
      { N := 3, AT := 60, RM := 1, OMEGA_E := [0, 0, 0, 0, 0],
        OMEGA_S := [0, 0, 0, 0, 0], ACN := [0, 0, 0, 0, 0],
        R1_E := [0, 0, 0, 0, 0], RE := 0, RS := 0 } =
      .ok
        { N := 3, AT := 60, RM := 1, OMEGA_E := [10, 30, 50, 0, 0],
          OMEGA_S := [-50, -30, -10, 0, 0], ACN := [10, 30, 50, 0, 0],
          R1_E := [0, 0, 0, 0, 0], RE := 1, RS := 1 } := by
    norm_num [PolarMultiMagnet.postInit, PolarMultiMagnet.postInitStep,
      show List.range 3 = [0, 1, 2] from rfl]
  rw [h1] at hc
  obtain rfl : s' =
      { N := 3, AT := 60, RM := 1, OMEGA_E := [10, 30, 50, 0, 0],
        OMEGA_S := [-50, -30, -10, 0, 0], ACN := [10, 30, 50, 0, 0],
        R1_E := [0, 0, 0, 0, 0], RE := 1, RS := 1 } := Except.ok.inj hc
  exact ⟨⟨by decide, by decide, by decide⟩, _, h1, h2, by rw [h2]; rfl⟩

/-- C8 counterexample: a 4-slot element (`N = 4`) whose entrance-EFB radii
array `R1_E` has only 3 entries while the azimuth arrays have 4: both
`Dipoles.post_init` and `FFAG.post_init` (identical bodies) run to
completion with no error at all — no inconsistent-input
(`ZgoubidooException`) check is performed. -/
theorem c8_counterexample_no_inconsistent_input_error :
    PolarMultiMagnet.postInit
      { N := 4, AT := 60, RM := 1, OMEGA_E := [0, 0, 0, 0],
        OMEGA_S := [0, 0, 0, 0], ACN := [0, 0, 0, 0], R1_E := [5, 5, 5],
        RE := 0, RS := 0 } =
      .ok
        { N := 4, AT := 60, RM := 1,
          OMEGA_E := [15/2, 45/2, 75/2, 105/2],
          OMEGA_S := [-(105/2), -(75/2), -(45/2), -(15/2)],
          ACN := [15/2, 45/2, 75/2, 105/2], R1_E := [5, 5, 5],
          RE := 1, RS := 1 } ∧
    PolarMultiMagnet.postInit
      { N := 4, AT := 60, RM := 1, OMEGA_E := [0, 0, 0, 0],
        OMEGA_S := [0, 0, 0, 0], ACN := [0, 0, 0, 0], R1_E := [5, 5, 5],
        RE := 0, RS := 0 } ≠ .error .zgoubidooException := by
  have h : PolarMultiMagnet.postInit
      { N := 4, AT := 60, RM := 1, OMEGA_E := [0, 0, 0, 0],
        OMEGA_S := [0, 0, 0, 0], ACN := [0, 0, 0, 0], R1_E := [5, 5, 5],
        RE := 0, RS := 0 } =
      .ok
        { N := 4, AT := 60, RM := 1,
          OMEGA_E := [15/2, 45/2, 75/2, 105/2],
          OMEGA_S := [-(105/2), -(75/2), -(45/2), -(15/2)],
          ACN := [15/2, 45/2, 75/2, 105/2], R1_E := [5, 5, 5],
          RE := 1, RS := 1 } := by
    norm_num [PolarMultiMagnet.postInit, PolarMultiMagnet.postInitStep,
      show List.range 4 = [0, 1, 2, 3] from rfl]
  exact ⟨h, by rw [h]; simp⟩

/-- C8 (amended): `post_init` performs no per-EFB array-length validation:
an array it never reads (the entrance-EFB radii `R1_E`) may have any
length — `post_init` succeeds and raises nothing; an azimuth array it does
read (`OMEGA_E`) that is shorter than `N` makes the loop raise the
built-in `IndexError`, not the library's inconsistent-input
`ZgoubidooException`. -/
theorem c8_amended_no_length_validation (a : ℚ) (r1e : List ℚ) :
    (∀ e : PyError, PolarMultiMagnet.postInit
      { N := 4, AT := a, RM := 1, OMEGA_E := [0, 0, 0, 0],
        OMEGA_S := [0, 0, 0, 0], ACN := [0, 0, 0, 0], R1_E := r1e,
        RE := 0, RS := 0 } ≠ .error e) ∧
    PolarMultiMagnet.postInit
      { N := 4, AT := a, RM := 1, OMEGA_E := [0, 0, 0],
        OMEGA_S := [0, 0, 0, 0], ACN := [0, 0, 0, 0], R1_E := r1e,
        RE := 0, RS := 0 } = .error .indexError ∧
    PyError.indexError ≠ PyError.zgoubidooException := by
  refine ⟨?_, ?_, by simp⟩
  · intro e
    norm_num [PolarMultiMagnet.postInit, PolarMultiMagnet.postInitStep,
      show List.range 4 = [0, 1, 2, 3] from rfl]
    exact fun hcontra => Except.noConfusion hcontra
  · norm_num [PolarMultiMagnet.postInit, PolarMultiMagnet.postInitStep,
      show List.range 4 = [0, 1, 2, 3] from rfl]
